import Mathlib

/-
  Verification of the scan lifecycle and row-materialization engine of the
  postgres-wasm-fdw connector (src/src/lib.rs, the active ExampleFdw impl).
  The host-plugin boilerplate (option lookup, HTTP transport, registration)
  is treated as an external collaborator: begin_scan is modelled from the
  point where the HTTP response body is in hand, with the JSON parser passed
  in as a function parameter.
-/

namespace Fdw

/-- JSON values as held by serde_json. Numbers are modelled as rationals:
serde_json stores i64, u64 or f64 and the connector reads numbers back only
through as_f64, so a single exact numeric field suffices (f64 rounding of
values outside the exactly representable range is not modelled; no claim
exercises it). Objects are association lists with first-match lookup. -/
inductive Json where
  | null : Json
  | bool (b : Bool) : Json
  | num (q : ℚ) : Json
  | str (s : String) : Json
  | arr (xs : List Json) : Json
  | obj (fields : List (String × Json)) : Json

/-- Modelled from the spec: the host type enumeration TypeOid comes from the
generated bindings module, which is not under src/. Per the spec the cell
union supports at minimum 64-bit integer and text, with further tags
(boolean, floating point, JSON, timestamp, ...) possible; only I64 and
String are distinguished by the connector, every other tag behaves alike. -/
inductive TypeOid where
  | Bool
  | I8
  | I16
  | I32
  | I64
  | F32
  | F64
  | Numeric
  | String
  | Date
  | Timestamp
  | Timestamptz
  | Json
  | Bytea
  | Uuid
deriving DecidableEq

/-- Target column descriptor: position (num), name, declared type. -/
structure Column where
  num : Nat
  name : String
  type_oid : TypeOid

/-- Cell values the connector can produce: Cell::I64 and Cell::String. -/
inductive Cell where
  | I64 (v : Int) : Cell
  | String (s : String) : Cell

/-- Session state of the connector (struct ExampleFdw in lib.rs). -/
structure ExampleFdw where
  base_url : String
  src_rows : List Json
  src_idx : Nat

/-- Key lookup in a JSON object (serde_json Map::get on our assoc list). -/
def lookupField : List (String × Json) → String → Option Json
  | [], _ => none
  | (k, v) :: rest, key => if k = key then some v else lookupField rest key

/-- A decimal digit value, for the pointer index parser. -/
def digitVal (c : Char) : Option Nat :=
  if 48 ≤ c.toNat ∧ c.toNat ≤ 57 then some (c.toNat - 48) else none

/-- Accumulate decimal digits; none on the first non-digit. -/
def parseDigitsAux : List Char → Nat → Option Nat
  | [], acc => some acc
  | c :: cs, acc =>
    match digitVal c with
    | some d => parseDigitsAux cs (acc * 10 + d)
    | none => none

/-- serde_json pointer index parsing (parse_index): rejects an empty token,
a leading plus sign, and a leading zero on a multi-character token. -/
def parseIndex (s : String) : Option Nat :=
  match s.data with
  | [] => none
  | c :: cs =>
    if c = Char.ofNat 43 then none
    else if c = Char.ofNat 48 ∧ cs ≠ [] then none
    else parseDigitsAux (c :: cs) 0

/-- serde_json Value::pointer, over an already split token list (the tokens
the connector builds never contain the tilde escapes, so unescaping is not
modelled). Objects resolve tokens as keys, arrays as parsed indices,
scalars resolve nothing. -/
def jptr : Json → List String → Option Json
  | j, [] => some j
  | Json.obj fields, t :: ts =>
    match lookupField fields t with
    | some v => jptr v ts
    | none => none
  | Json.arr xs, t :: ts =>
    match parseIndex t with
    | some i =>
      match xs.get? i with
      | some v => jptr v ts
      | none => none
    | none => none
  | _, _ :: _ => none

/-- serde_json Value::as_f64: any number converts, everything else is none. -/
def asF64 : Json → Option ℚ
  | Json.num q => some q
  | _ => none

/-- serde_json Value::as_str. -/
def asStr : Json → Option String
  | Json.str s => some s
  | _ => none

/-- serde_json Value::as_array. -/
def asArr : Json → Option (List Json)
  | Json.arr xs => some xs
  | _ => none

def i64Min : Int := -(2 ^ 63)

def i64Max : Int := 2 ^ 63 - 1

/-- The Rust cast chain as_f64 followed by as i64: truncation toward zero,
saturating at the i64 bounds. -/
def f64ToI64 (q : ℚ) : Int :=
  let t := Int.tdiv q.num (q.den : Int)
  if t < i64Min then i64Min else if i64Max < t then i64Max else t

/-- The XSS-guard literal the remote service puts in front of the JSON body:
the five characters right-paren, right-bracket, right-brace, apostrophe,
newline. -/
def guardLit : List Char :=
  [Char.ofNat 41, Char.ofNat 93, Char.ofNat 125, Char.ofNat 39, Char.ofNat 10]

/-- Rust str strip of an exact leading literal: some remainder when the
literal leads, none otherwise. -/
def stripGuard : List Char → List Char → Option (List Char)
  | [], s => some s
  | _ :: _, [] => none
  | p :: ps, c :: cs => if c = p then stripGuard ps cs else none

/-- The Rust panic message produced by Option::unwrap on None. -/
def panicMsg : String := "called `Option::unwrap()` on a `None` value"

/-- Outcome of begin_scan: success carries the updated state and the record
count reported through the informational diagnostic; err carries the error
string returned to the host; panicked models an uncaught Rust panic
(abort), which is neither Ok nor Err. -/
inductive BeginScanResult where
  | ok (st : ExampleFdw) (reported : Nat) : BeginScanResult
  | err (msg : String) : BeginScanResult
  | panicked (msg : String) : BeginScanResult

def defaultBaseUrl : String := "https://docs.google.com/spreadsheets/d"

/-- init: a fresh default instance, base_url from the server option when
given, else the documented default. src_rows empty, src_idx zero. -/
def ExampleFdw.init (base_url : Option String) : ExampleFdw :=
  { base_url := base_url.getD defaultBaseUrl, src_rows := [], src_idx := 0 }

/-- The stage of begin_scan after JSON parsing: locate /table/rows, require
an array (as_array().unwrap() panics when the value is not an array), then
store the rows into the session state. Note src_idx is not touched. -/
def handleParsed (parsed : Except String Json) (st : ExampleFdw) : BeginScanResult :=
  match parsed with
  | Except.error e => BeginScanResult.err e
  | Except.ok doc =>
    match jptr doc ["table", "rows"] with
    | none => BeginScanResult.err "cannot get rows from response"
    | some v =>
      match asArr v with
      | none => BeginScanResult.panicked panicMsg
      | some rows => BeginScanResult.ok { st with src_rows := rows } rows.length

/-- begin_scan from the point where the HTTP response body is in hand (the
sheet_id option lookup and the GET are external collaborators whose failures
abort earlier without touching the session state). The body must carry the
exact guard literal, which is removed; the remainder goes to the JSON
parser, passed in as a parameter. -/
def ExampleFdw.begin_scan (parse : List Char → Except String Json) (body : List Char)
    (st : ExampleFdw) : BeginScanResult :=
  match stripGuard guardLit body with
  | none => BeginScanResult.err "invalid response"
  | some rest => handleParsed (parse rest) st

/-- Source-cell resolution for one target column: the JSON pointer
/c/(num - 1)/v built by iter_scan. Subtraction is Nat subtraction; the host
only ever passes 1-based positions. -/
def resolveCell (src_row : Json) (c : Column) : Option Json :=
  jptr src_row ["c", Nat.repr (c.num - 1), "v"]

/-- The per-column type dispatch of iter_scan: I64 and String coerce (an
absent result stands for a NULL cell), every other declared type is the
unsupported-type error, with the message naming the column. -/
def coerceStep (c : Column) (src : Json) : Except String (Option Cell) :=
  match c.type_oid with
  | TypeOid.I64 => Except.ok ((asF64 src).map (fun v => Cell.I64 (f64ToI64 v)))
  | TypeOid.String => Except.ok ((asStr src).map Cell.String)
  | _ => Except.error ("column " ++ c.name ++ " data type is not supported")

/-- The column loop of iter_scan over one source record: returns the cells
pushed into the target row and, when a column with an unsupported type has a
present source cell, the error that aborts the loop (cells pushed before the
abort are kept, the offending column pushes nothing). -/
def materializeCells (src_row : Json) : List Column → List (Option Cell) × Option String
  | [] => ([], none)
  | c :: rest =>
    match resolveCell src_row c with
    | some src =>
      match coerceStep c src with
      | Except.ok cell =>
        let r := materializeCells src_row rest
        (cell :: r.1, r.2)
      | Except.error e => ([], some e)
    | none =>
      let r := materializeCells src_row rest
      (none :: r.1, r.2)

/-- iter_scan: Ok none when the cursor has consumed all buffered records;
otherwise run the column loop on the current record, and on success advance
the cursor and report Ok (some 0). The third component is the sequence of
cells pushed into the target row during the call. -/
def ExampleFdw.iter_scan (cols : List Column) (st : ExampleFdw) :
    Except String (Option Nat) × ExampleFdw × List (Option Cell) :=
  if st.src_rows.length ≤ st.src_idx then (Except.ok none, st, [])
  else
    match materializeCells (st.src_rows.getD st.src_idx Json.null) cols with
    | (cells, none) => (Except.ok (some 0), { st with src_idx := st.src_idx + 1 }, cells)
    | (cells, some e) => (Except.error e, st, cells)

/-- re_scan: always the not-supported error, state untouched. -/
def ExampleFdw.re_scan (st : ExampleFdw) : Except String Unit × ExampleFdw :=
  (Except.error "re_scan on foreign table is not supported", st)

/-- end_scan: clear the buffered records (src_rows.clear()), keep base_url
and src_idx. -/
def ExampleFdw.end_scan (st : ExampleFdw) : Except String Unit × ExampleFdw :=
  (Except.ok (), { st with src_rows := [] })

/-- A column is non-aborting on a record when its source cell is absent or
its declared type has a coercion rule. -/
def colOk (src_row : Json) (c : Column) : Prop :=
  resolveCell src_row c = none ∨ c.type_oid = TypeOid.I64 ∨ c.type_oid = TypeOid.String

/-- k successive iter_scan calls from a state, tracking only the state. -/
def iterateScan (cols : List Column) (st : ExampleFdw) : Nat → ExampleFdw
  | 0 => st
  | k + 1 => (ExampleFdw.iter_scan cols (iterateScan cols st k)).2.1

/-- States reachable by any sequence of the lifecycle calls. A failed
begin_scan leaves the state untouched, so only the successful case adds a
state; iter_scan, re_scan and end_scan always yield their result state. -/
inductive Reachable : ExampleFdw → Prop where
  | init (base_url : Option String) : Reachable (ExampleFdw.init base_url)
  | beginScan {parse : List Char → Except String Json} {body : List Char}
      {st st' : ExampleFdw} {n : Nat} :
      Reachable st → ExampleFdw.begin_scan parse body st = BeginScanResult.ok st' n →
      Reachable st'
  | iterScan (cols : List Column) {st : ExampleFdw} :
      Reachable st → Reachable (ExampleFdw.iter_scan cols st).2.1
  | reScan {st : ExampleFdw} : Reachable st → Reachable (ExampleFdw.re_scan st).2
  | endScan {st : ExampleFdw} : Reachable st → Reachable (ExampleFdw.end_scan st).2

/-- A response document with one record, for concrete runs. -/
def doc1 : Json := Json.obj [("table", Json.obj [("rows", Json.arr [Json.null])])]

/-- A parser stub returning doc1 for any input. -/
def parse1 : List Char → Except String Json := fun _ => Except.ok doc1

/-- A parsed document whose table.rows is present but not an array. -/
def docBad : Json := Json.obj [("table", Json.obj [("rows", Json.num 1)])]

/-- A parser stub returning docBad for any input. -/
def parseBad : List Char → Except String Json := fun _ => Except.ok docBad

/-- A parser stub returning a bare JSON null: parsing succeeds but the
document has no table.rows path. -/
def parseNull : List Char → Except String Json := fun _ => Except.ok Json.null

/-- A response body that does not start with the guard literal. -/
def bodyA : List Char := [Char.ofNat 65]

/-- A record with a string cell at position 1 and a boolean cell at
position 2, shaped like the documented gviz row format. -/
def rowC10 : Json :=
  Json.obj [("c", Json.arr [Json.obj [("v", Json.str "a")], Json.obj [("v", Json.bool true)]])]

/-- Columns requesting a String at position 1 and an (unsupported) Bool at
position 2. -/
def colsC10 : List Column := [Column.mk 1 "s" TypeOid.String, Column.mk 2 "b" TypeOid.Bool]

/-- A session state buffering the one record rowC10 with the cursor at 0. -/
def stC10 : ExampleFdw := ExampleFdw.mk "u" [rowC10] 0

/-- Removing a literal that was put in front gives back the remainder. -/
theorem stripGuard_append (p r : List Char) : stripGuard p (p ++ r) = some r := by
  induction p with
  | nil => rfl
  | cons c cs ih => simp [stripGuard, ih]

/-- A successful strip means the literal led the input. -/
theorem stripGuard_eq_append (p : List Char) :
    ∀ b r : List Char, stripGuard p b = some r → b = p ++ r := by
  induction p with
  | nil =>
    intro b r h
    simp [stripGuard] at h
    simp [h]
  | cons c cs ih =>
    intro b r h
    cases b with
    | nil => simp [stripGuard] at h
    | cons x xs =>
      simp only [stripGuard] at h
      by_cases hx : x = c
      · rw [if_pos hx] at h
        have := ih xs r h
        simp [hx, this]
      · rw [if_neg hx] at h
        exact absurd h (by simp)

/-- as_array succeeds exactly on arrays. -/
theorem asArr_eq (v : Json) (xs : List Json) (h : asArr v = some xs) : v = Json.arr xs := by
  cases v <;> simp_all [asArr]

/-- Any declared type other than I64 and String hits the unsupported-type
error in the coercion dispatch. -/
theorem coerceStep_unsupported (c : Column) (src : Json) (h1 : c.type_oid ≠ TypeOid.I64)
    (h2 : c.type_oid ≠ TypeOid.String) :
    coerceStep c src = Except.error ("column " ++ c.name ++ " data type is not supported") := by
  unfold coerceStep
  cases h : c.type_oid
  case I64 => exact absurd h h1
  case String => exact absurd h h2
  all_goals rfl

/-- A declared type with a coercion rule never errors the dispatch. -/
theorem coerceStep_ok (c : Column) (src : Json)
    (h : c.type_oid = TypeOid.I64 ∨ c.type_oid = TypeOid.String) :
    ∃ cell, coerceStep c src = Except.ok cell := by
  rcases h with h | h <;> unfold coerceStep <;> rw [h] <;> exact ⟨_, rfl⟩

/-- The column loop raises no error when every requested column is
non-aborting (absent cell or supported type). -/
theorem materialize_snd_none (row : Json) :
    ∀ cols : List Column, (∀ c ∈ cols, colOk row c) → (materializeCells row cols).2 = none := by
  intro cols
  induction cols with
  | nil => intro _; rfl
  | cons c rest ih =>
    intro h
    have hrest : ∀ x ∈ rest, colOk row x := fun x hx => h x (List.mem_cons_of_mem c hx)
    rcases h c (List.mem_cons_self c rest) with hr | hsup
    · simp [materializeCells, hr, ih hrest]
    · cases hrp : resolveCell row c with
      | none => simp [materializeCells, hrp, ih hrest]
      | some srcp =>
        obtain ⟨cell, hcell⟩ := coerceStep_ok c srcp hsup
        simp [materializeCells, hrp, hcell, ih hrest]

/-- The column loop surfaces the unsupported-type error of a column with a
present source cell, across any non-aborting earlier columns. -/
theorem materialize_err_at (row : Json) (c : Column) (rest : List Column) (src : Json)
    (hres : resolveCell row c = some src) (h1 : c.type_oid ≠ TypeOid.I64)
    (h2 : c.type_oid ≠ TypeOid.String) :
    ∀ pre : List Column, (∀ p ∈ pre, colOk row p) →
      (materializeCells row (pre ++ c :: rest)).2
        = some ("column " ++ c.name ++ " data type is not supported") := by
  intro pre
  induction pre with
  | nil =>
    intro _
    simp [materializeCells, hres, coerceStep_unsupported c src h1 h2]
  | cons p ps ih =>
    intro hpre
    have hps : ∀ x ∈ ps, colOk row x := fun x hx => hpre x (List.mem_cons_of_mem p hx)
    rcases hpre p (List.mem_cons_self p ps) with hr | hsup
    · simp [materializeCells, hr, ih hps]
    · cases hrp : resolveCell row p with
      | none => simp [materializeCells, hrp, ih hps]
      | some srcp =>
        obtain ⟨cell, hcell⟩ := coerceStep_ok p srcp hsup
        simp [materializeCells, hrp, hcell, ih hps]

/-- iter_scan at an exhausted cursor: Ok none, state untouched, no cells. -/
theorem iter_scan_done (cols : List Column) (st : ExampleFdw)
    (h : st.src_rows.length ≤ st.src_idx) :
    ExampleFdw.iter_scan cols st = (Except.ok none, st, []) := by
  unfold ExampleFdw.iter_scan
  rw [if_pos h]

/-- iter_scan on an in-range cursor with a non-aborting column loop:
Ok (some 0), cursor advanced by one, the loop's cells pushed. -/
theorem iter_scan_step (cols : List Column) (st : ExampleFdw)
    (h : st.src_idx < st.src_rows.length)
    (h2 : (materializeCells (st.src_rows.getD st.src_idx Json.null) cols).2 = none) :
    ExampleFdw.iter_scan cols st
      = (Except.ok (some 0), { st with src_idx := st.src_idx + 1 },
         (materializeCells (st.src_rows.getD st.src_idx Json.null) cols).1) := by
  unfold ExampleFdw.iter_scan
  rw [if_neg (not_le.mpr h)]
  have hm : materializeCells (st.src_rows.getD st.src_idx Json.null) cols
      = ((materializeCells (st.src_rows.getD st.src_idx Json.null) cols).1, none) := by
    rw [← h2]
  rw [hm]

/-- iter_scan on an in-range cursor with an aborting column loop: the error
is surfaced, the cursor is not advanced, the cells pushed so far remain. -/
theorem iter_scan_err (cols : List Column) (st : ExampleFdw) (e : String)
    (h : st.src_idx < st.src_rows.length)
    (h2 : (materializeCells (st.src_rows.getD st.src_idx Json.null) cols).2 = some e) :
    ExampleFdw.iter_scan cols st
      = (Except.error e, st, (materializeCells (st.src_rows.getD st.src_idx Json.null) cols).1) := by
  unfold ExampleFdw.iter_scan
  rw [if_neg (not_le.mpr h)]
  have hm : materializeCells (st.src_rows.getD st.src_idx Json.null) cols
      = ((materializeCells (st.src_rows.getD st.src_idx Json.null) cols).1, some e) := by
    rw [← h2]
  rw [hm]

/-- Under a zero starting cursor and supported column types, k iter_scan
calls leave the records untouched and move the cursor to min k n. -/
theorem iterateScan_eq (cols : List Column) (st : ExampleFdw) (h0 : st.src_idx = 0)
    (hsup : ∀ c ∈ cols, c.type_oid = TypeOid.I64 ∨ c.type_oid = TypeOid.String) :
    ∀ k, iterateScan cols st k = { st with src_idx := min k st.src_rows.length } := by
  intro k
  induction k with
  | zero =>
    obtain ⟨b, r, i⟩ := st
    simp only [ExampleFdw.src_idx] at h0
    subst h0
    simp [iterateScan]
  | succ k ih =>
    show (ExampleFdw.iter_scan cols (iterateScan cols st k)).2.1 = _
    rw [ih]
    by_cases hk : k < st.src_rows.length
    · rw [min_eq_left (le_of_lt hk)]
      have hstep := iter_scan_step cols { st with src_idx := k } hk
          (materialize_snd_none _ cols (fun c hc => Or.inr (hsup c hc)))
      rw [hstep]
      show ({ st with src_idx := k + 1 } : ExampleFdw) = _
      rw [min_eq_left (by omega)]
    · push_neg at hk
      rw [min_eq_right hk]
      rw [iter_scan_done cols { st with src_idx := st.src_rows.length } (Nat.le_refl _)]
      show ({ st with src_idx := st.src_rows.length } : ExampleFdw) = _
      rw [min_eq_right (by omega)]

/-- C1, counterexample: the state reached by init, a successful begin_scan
buffering one record, one iter_scan, then end_scan is reachable and
violates the invariant cursor less-or-equal record count: end_scan clears
src_rows but leaves src_idx at 1. -/
theorem C1_cex :
    Reachable (ExampleFdw.mk defaultBaseUrl [] 1) ∧
    (ExampleFdw.mk defaultBaseUrl [] 1).src_rows.length
      < (ExampleFdw.mk defaultBaseUrl [] 1).src_idx := by
  constructor
  · have h0 : Reachable (ExampleFdw.init none) := Reachable.init none
    have hb : ExampleFdw.begin_scan parse1 guardLit (ExampleFdw.init none)
        = BeginScanResult.ok (ExampleFdw.mk defaultBaseUrl [Json.null] 0) 1 := rfl
    have h1 : Reachable (ExampleFdw.mk defaultBaseUrl [Json.null] 0) :=
      Reachable.beginScan h0 hb
    have h2 := Reachable.iterScan [] h1
    have h3 : Reachable (ExampleFdw.mk defaultBaseUrl [Json.null] 1) := h2
    have h4 := Reachable.endScan h3
    exact h4
  · decide

/-- C1, amended: the invariant cursor less-or-equal len(source_records)
holds after init and is preserved by iter_scan and by re_scan, but it is
not an invariant of all reachable states: end_scan clears the records
while keeping the cursor, and begin_scan stores new records without
resetting the cursor, so both can break it (see the counterexample). -/
theorem C1_amended :
    (∀ base_url : Option String,
        (ExampleFdw.init base_url).src_idx ≤ (ExampleFdw.init base_url).src_rows.length) ∧
    (∀ (cols : List Column) (st : ExampleFdw), st.src_idx ≤ st.src_rows.length →
        (ExampleFdw.iter_scan cols st).2.1.src_idx
          ≤ (ExampleFdw.iter_scan cols st).2.1.src_rows.length) ∧
    (∀ st : ExampleFdw, st.src_idx ≤ st.src_rows.length →
        (ExampleFdw.re_scan st).2.src_idx ≤ (ExampleFdw.re_scan st).2.src_rows.length) := by
  refine ⟨fun u => by simp [ExampleFdw.init], ?_, fun st h => h⟩
  intro cols st h
  by_cases hle : st.src_rows.length ≤ st.src_idx
  · rw [iter_scan_done cols st hle]
    exact h
  · push_neg at hle
    cases hm : (materializeCells (st.src_rows.getD st.src_idx Json.null) cols).2 with
    | none =>
      rw [iter_scan_step cols st hle hm]
      show st.src_idx + 1 ≤ st.src_rows.length
      omega
    | some e =>
      rw [iter_scan_err cols st e hle hm]
      exact h

/-- C1, witness: the preservation part of the amended claim applied to a
concrete in-invariant state. -/
theorem C1_witness :
    (ExampleFdw.iter_scan [] (ExampleFdw.mk "u" [Json.null] 0)).2.1.src_idx
      ≤ (ExampleFdw.iter_scan [] (ExampleFdw.mk "u" [Json.null] 0)).2.1.src_rows.length :=
  C1_amended.2.1 [] (ExampleFdw.mk "u" [Json.null] 0) (by decide)

/-- C2, counterexample: a successful begin_scan from a state whose cursor
is 1 stores the one extracted record but leaves the cursor at 1, not 0. -/
theorem C2_cex :
    ExampleFdw.begin_scan parse1 guardLit (ExampleFdw.mk "u" [] 1)
      = BeginScanResult.ok (ExampleFdw.mk "u" [Json.null] 1) 1 ∧
    (ExampleFdw.mk "u" [Json.null] 1).src_idx ≠ 0 :=
  ⟨rfl, by decide⟩

/-- C2, amended: a successful begin_scan stores exactly the array found at
table.rows of the parsed stripped body and reports its length, but leaves
the cursor (src_idx) unchanged instead of resetting it to zero; pulls
start from the first record only when the prior cursor already was zero. -/
theorem C2_amended : ∀ (parse : List Char → Except String Json) (body : List Char)
    (st st' : ExampleFdw) (n : Nat),
    ExampleFdw.begin_scan parse body st = BeginScanResult.ok st' n →
    st'.base_url = st.base_url ∧ st'.src_idx = st.src_idx ∧ n = st'.src_rows.length := by
  intro parse body st st' n h
  cases hs : stripGuard guardLit body with
  | none => simp [ExampleFdw.begin_scan, hs] at h
  | some rest =>
    simp only [ExampleFdw.begin_scan, hs, handleParsed] at h
    cases hp : parse rest with
    | error e => simp [hp] at h
    | ok doc =>
      simp only [hp] at h
      cases hj : jptr doc ["table", "rows"] with
      | none => simp [hj] at h
      | some v =>
        simp only [hj] at h
        cases hv : asArr v with
        | none => simp [hv] at h
        | some rows =>
          simp only [hv, BeginScanResult.ok.injEq] at h
          obtain ⟨hst, hn⟩ := h
          subst hst
          subst hn
          exact ⟨rfl, rfl, rfl⟩

/-- C2, witness: the amended claim applied to the concrete run of the
counterexample. -/
theorem C2_witness :
    (ExampleFdw.mk "u" [Json.null] 1).base_url = (ExampleFdw.mk "u" [] 1).base_url ∧
    (ExampleFdw.mk "u" [Json.null] 1).src_idx = (ExampleFdw.mk "u" [] 1).src_idx ∧
    1 = (ExampleFdw.mk "u" [Json.null] 1).src_rows.length := by
  have h := C2_amended parse1 guardLit (ExampleFdw.mk "u" [] 1)
      (ExampleFdw.mk "u" [Json.null] 1) 1 rfl
  exact h

/-- C3, counterexample: a column with an unsupported declared type (Bool)
whose source cell is absent does not fail the pull: iter_scan returns
Ok (some 0), against the claim that the error is raised regardless of
presence. -/
theorem C3_cex :
    resolveCell (Json.obj [("c", Json.arr [])]) (Column.mk 1 "b" TypeOid.Bool) = none ∧
    (ExampleFdw.iter_scan [Column.mk 1 "b" TypeOid.Bool]
        (ExampleFdw.mk "u" [Json.obj [("c", Json.arr [])]] 0)).1 = Except.ok (some 0) :=
  ⟨rfl, rfl⟩

/-- C3, amended: with the cursor in range, a requested column whose
declared type has no coercion rule fails the pull with the
unsupported-type error naming it only when its source cell is present
(here: the first such column after any non-aborting ones); when every
unsupported-type column has an absent cell the loop raises no error. -/
theorem C3_amended :
    (∀ (row : Json) (pre : List Column) (c : Column) (rest : List Column) (src : Json),
        (∀ p ∈ pre, colOk row p) → resolveCell row c = some src →
        c.type_oid ≠ TypeOid.I64 → c.type_oid ≠ TypeOid.String →
        (materializeCells row (pre ++ c :: rest)).2
          = some ("column " ++ c.name ++ " data type is not supported")) ∧
    (∀ (row : Json) (cols : List Column), (∀ p ∈ cols, colOk row p) →
        (materializeCells row cols).2 = none) ∧
    (∀ (cols : List Column) (st : ExampleFdw) (e : String),
        st.src_idx < st.src_rows.length →
        (materializeCells (st.src_rows.getD st.src_idx Json.null) cols).2 = some e →
        (ExampleFdw.iter_scan cols st).1 = Except.error e) :=
  ⟨fun row pre c rest src hpre hres h1 h2 =>
      materialize_err_at row c rest src hres h1 h2 pre hpre,
   fun row cols h => materialize_snd_none row cols h,
   fun cols st e hlt hm => by rw [iter_scan_err cols st e hlt hm]⟩

/-- C3, witness: the amended claim at a record whose Bool-typed column has
a present source cell: the pull fails with the unsupported-type error. -/
theorem C3_witness :
    (ExampleFdw.iter_scan [Column.mk 1 "b" TypeOid.Bool]
        (ExampleFdw.mk "u" [Json.obj [("c", Json.arr [Json.obj [("v", Json.bool true)]])]] 0)).1
      = Except.error "column b data type is not supported" := by
  have h1 := C3_amended.1 (Json.obj [("c", Json.arr [Json.obj [("v", Json.bool true)]])])
      [] (Column.mk 1 "b" TypeOid.Bool) [] (Json.bool true) (by simp) rfl
      (by decide) (by decide)
  exact C3_amended.2.2 [Column.mk 1 "b" TypeOid.Bool]
      (ExampleFdw.mk "u" [Json.obj [("c", Json.arr [Json.obj [("v", Json.bool true)]])]] 0)
      "column b data type is not supported" (by decide) h1

/-- C4, counterexample: a successfully parsed document whose table.rows is
present but is a number makes begin_scan panic (Option::unwrap on None),
not return a ProtocolError. -/
theorem C4_cex :
    jptr docBad ["table", "rows"] = some (Json.num 1) ∧
    ExampleFdw.begin_scan parseBad guardLit (ExampleFdw.mk "u" [] 0)
      = BeginScanResult.panicked panicMsg :=
  ⟨rfl, rfl⟩

/-- C4, amended: for a body whose JSON parses successfully, begin_scan
returns the ProtocolError when the path table.rows is absent; when the
path is present but its value is not an array, begin_scan panics via
Option::unwrap instead of returning an error. -/
theorem C4_amended : ∀ (parse : List Char → Except String Json) (body rest : List Char)
    (st : ExampleFdw) (doc : Json),
    stripGuard guardLit body = some rest → parse rest = Except.ok doc →
    (jptr doc ["table", "rows"] = none →
        ExampleFdw.begin_scan parse body st
          = BeginScanResult.err "cannot get rows from response") ∧
    (∀ v, jptr doc ["table", "rows"] = some v → asArr v = none →
        ExampleFdw.begin_scan parse body st = BeginScanResult.panicked panicMsg) := by
  intro parse body rest st doc hs hp
  constructor
  · intro hj
    unfold ExampleFdw.begin_scan handleParsed
    simp only [hs, hp, hj]
  · intro v hj hv
    unfold ExampleFdw.begin_scan handleParsed
    simp only [hs, hp, hj, hv]

/-- C4, witness: the amended claim at a parsed document with no table.rows
path. -/
theorem C4_witness :
    ExampleFdw.begin_scan parseNull guardLit (ExampleFdw.mk "u" [] 0)
      = BeginScanResult.err "cannot get rows from response" :=
  (C4_amended parseNull guardLit [] (ExampleFdw.mk "u" [] 0) Json.null rfl rfl).1 rfl

/-- C5, counterexample: an object record keyed by the column name: the
name maps to a value, yet the pull pushes an absent cell, because no
key-based addressing is attempted. -/
theorem C5_cex :
    lookupField [("foo", Json.str "bar")] "foo" = some (Json.str "bar") ∧
    (ExampleFdw.iter_scan [Column.mk 1 "foo" TypeOid.String]
        (ExampleFdw.mk "u" [Json.obj [("foo", Json.str "bar")]] 0)).2.2 = [none] ∧
    ([none] : List (Option Cell)) ≠ [some (Cell.String "bar")] :=
  ⟨rfl, rfl, by simp⟩

/-- C5, amended: the row materializer supports only positional addressing
through the fixed pointer path c/(position-1)/v; key-based lookup by
column name is never performed, so on any object record without a "c"
field every requested column resolves to an absent cell regardless of its
name. -/
theorem C5_amended : ∀ (fields : List (String × Json)) (cols : List Column),
    lookupField fields "c" = none →
    (∀ c : Column, resolveCell (Json.obj fields) c = none) ∧
    materializeCells (Json.obj fields) cols = (cols.map fun _ => none, none) := by
  intro fields cols hc
  have hres : ∀ c : Column, resolveCell (Json.obj fields) c = none := by
    intro c
    simp [resolveCell, jptr, hc]
  refine ⟨hres, ?_⟩
  induction cols with
  | nil => rfl
  | cons c rest ih => simp [materializeCells, hres c, ih]

/-- C5, witness: the amended claim at a one-field object record and a
column named after that field. -/
theorem C5_witness :
    materializeCells (Json.obj [("foo", Json.str "bar")]) [Column.mk 1 "foo" TypeOid.String]
      = ([none], none) := by
  have h := (C5_amended [("foo", Json.str "bar")] [Column.mk 1 "foo" TypeOid.String] rfl).2
  exact h

/-- C6: starting at cursor 0 over n buffered records with only supported
column types, each of the first n pulls returns Ok (some 0) and moves the
cursor one on, and every pull from the n-th onwards returns Ok none with
the state unchanged and nothing pushed. -/
theorem C6_exhaustion : ∀ (st : ExampleFdw) (cols : List Column),
    st.src_idx = 0 →
    (∀ c ∈ cols, c.type_oid = TypeOid.I64 ∨ c.type_oid = TypeOid.String) →
    (∀ k, k < st.src_rows.length →
        (ExampleFdw.iter_scan cols (iterateScan cols st k)).1 = Except.ok (some 0) ∧
        iterateScan cols st (k + 1) = { st with src_idx := k + 1 }) ∧
    (∀ k, st.src_rows.length ≤ k →
        ExampleFdw.iter_scan cols (iterateScan cols st k)
          = (Except.ok none, iterateScan cols st k, [])) := by
  intro st cols h0 hsup
  have hit := iterateScan_eq cols st h0 hsup
  constructor
  · intro k hk
    constructor
    · rw [hit k, min_eq_left (le_of_lt hk)]
      rw [iter_scan_step cols { st with src_idx := k } hk
          (materialize_snd_none _ cols (fun c hc => Or.inr (hsup c hc)))]
    · rw [hit (k + 1), min_eq_left (by omega)]
  · intro k hk
    rw [hit k, min_eq_right hk]
    exact iter_scan_done cols _ (Nat.le_refl _)

/-- C6, witness: one buffered record, no requested columns: the first pull
succeeds, the second returns Ok none leaving the state unchanged. -/
theorem C6_witness :
    (ExampleFdw.iter_scan [] (ExampleFdw.mk "u" [Json.null] 0)).1 = Except.ok (some 0) ∧
    ExampleFdw.iter_scan [] (iterateScan [] (ExampleFdw.mk "u" [Json.null] 0) 1)
      = (Except.ok none, iterateScan [] (ExampleFdw.mk "u" [Json.null] 0) 1, []) := by
  have h := C6_exhaustion (ExampleFdw.mk "u" [Json.null] 0) [] rfl (by simp)
  exact ⟨(h.1 0 (by decide)).1, h.2 1 (by decide)⟩

/-- C7: for a record and a requested column with a coercion rule, a
present source cell of the matching JSON kind yields a present cell of
the declared type (numbers truncated through the f64-to-i64 cast), and a
present source cell of a mismatched kind yields an absent cell while the
loop continues without raising an error. -/
theorem C7_coercion : ∀ (row : Json) (c : Column) (rest : List Column) (src : Json),
    resolveCell row c = some src →
    (c.type_oid = TypeOid.I64 → ∀ q : ℚ, src = Json.num q →
        materializeCells row (c :: rest)
          = (some (Cell.I64 (f64ToI64 q)) :: (materializeCells row rest).1,
             (materializeCells row rest).2)) ∧
    (c.type_oid = TypeOid.String → ∀ s : String, src = Json.str s →
        materializeCells row (c :: rest)
          = (some (Cell.String s) :: (materializeCells row rest).1,
             (materializeCells row rest).2)) ∧
    (c.type_oid = TypeOid.I64 → asF64 src = none →
        materializeCells row (c :: rest)
          = (none :: (materializeCells row rest).1, (materializeCells row rest).2)) ∧
    (c.type_oid = TypeOid.String → asStr src = none →
        materializeCells row (c :: rest)
          = (none :: (materializeCells row rest).1, (materializeCells row rest).2)) := by
  intro row c rest src hres
  refine ⟨?_, ?_, ?_, ?_⟩
  · intro hoid q hq
    subst hq
    simp [materializeCells, hres, coerceStep, hoid, asF64]
  · intro hoid s hq
    subst hq
    simp [materializeCells, hres, coerceStep, hoid, asStr]
  · intro hoid hnone
    simp [materializeCells, hres, coerceStep, hoid, hnone]
  · intro hoid hnone
    simp [materializeCells, hres, coerceStep, hoid, hnone]

/-- C7, witness: an I64 column over the documented example cell v = 1.0
produces the present cell I64 1. -/
theorem C7_witness :
    materializeCells (Json.obj [("c", Json.arr [Json.obj [("v", Json.num 1)]])])
        [Column.mk 1 "id" TypeOid.I64]
      = ([some (Cell.I64 1)], none) := by
  have h := (C7_coercion (Json.obj [("c", Json.arr [Json.obj [("v", Json.num 1)]])])
      (Column.mk 1 "id" TypeOid.I64) [] (Json.num 1) rfl).1 rfl 1 rfl
  have h2 : f64ToI64 1 = 1 := by decide
  rw [h2] at h
  exact h

/-- C8: a body that does not start with the exact guard literal makes
begin_scan fail with the ProtocolError before any JSON parsing happens
(the outcome does not depend on the parser), and on a body that does
start with it exactly the literal is removed and the remainder goes to
the parser. -/
theorem C8_envelope : ∀ (parse parse2 : List Char → Except String Json)
    (body rest : List Char) (st : ExampleFdw),
    ((∀ r : List Char, body ≠ guardLit ++ r) →
        ExampleFdw.begin_scan parse body st = BeginScanResult.err "invalid response" ∧
        ExampleFdw.begin_scan parse body st = ExampleFdw.begin_scan parse2 body st) ∧
    ExampleFdw.begin_scan parse (guardLit ++ rest) st = handleParsed (parse rest) st := by
  intro parse parse2 body rest st
  constructor
  · intro hb
    have hs : stripGuard guardLit body = none := by
      cases hs : stripGuard guardLit body with
      | none => rfl
      | some r => exact absurd (stripGuard_eq_append guardLit body r hs) (hb r)
    constructor
    · unfold ExampleFdw.begin_scan
      rw [hs]
    · unfold ExampleFdw.begin_scan
      rw [hs]
  · unfold ExampleFdw.begin_scan
    rw [stripGuard_append guardLit rest]

/-- C8, witness: a one-character body not led by the literal fails with
the ProtocolError, and prepending the literal routes the remainder to the
parser. -/
theorem C8_witness :
    ExampleFdw.begin_scan parse1 bodyA (ExampleFdw.mk "u" [] 0)
      = BeginScanResult.err "invalid response" ∧
    ExampleFdw.begin_scan parse1 (guardLit ++ bodyA) (ExampleFdw.mk "u" [] 0)
      = handleParsed (parse1 bodyA) (ExampleFdw.mk "u" [] 0) := by
  have h := C8_envelope parse1 parse1 bodyA bodyA (ExampleFdw.mk "u" [] 0)
  refine ⟨(h.1 ?_).1, h.2⟩
  intro r hr
  have hlen := congrArg List.length hr
  simp [bodyA, guardLit] at hlen

/-- C9: re_scan always fails with the not-supported error and returns the
session state unchanged, in every state. -/
theorem C9_reScan : ∀ st : ExampleFdw,
    ExampleFdw.re_scan st = (Except.error "re_scan on foreign table is not supported", st) :=
  fun _ => rfl

/-- C10: when iter_scan fails, the session state is exactly the entry
state (the cursor is not advanced); the cursor advances exactly on the
Ok (some _) outcome; on Ok none nothing is pushed and the state is also
unchanged. -/
theorem C10_errState : ∀ (cols : List Column) (st st' : ExampleFdw) (e : String)
    (cells : List (Option Cell)) (u : Nat),
    (ExampleFdw.iter_scan cols st = (Except.error e, st', cells) → st' = st) ∧
    (ExampleFdw.iter_scan cols st = (Except.ok (some u), st', cells) →
        st' = { st with src_idx := st.src_idx + 1 }) ∧
    (ExampleFdw.iter_scan cols st = (Except.ok none, st', cells) → st' = st ∧ cells = []) := by
  intro cols st st' e cells u
  by_cases hle : st.src_rows.length ≤ st.src_idx
  · have hd := iter_scan_done cols st hle
    refine ⟨?_, ?_, ?_⟩
    · intro h
      rw [hd] at h
      simp [Prod.ext_iff] at h
    · intro h
      rw [hd] at h
      simp [Prod.ext_iff] at h
    · intro h
      rw [hd] at h
      simp [Prod.ext_iff] at h
      exact ⟨h.1.symm, h.2⟩
  · push_neg at hle
    cases hm : (materializeCells (st.src_rows.getD st.src_idx Json.null) cols).2 with
    | none =>
      have hs := iter_scan_step cols st hle hm
      refine ⟨?_, ?_, ?_⟩
      · intro h
        rw [hs] at h
        simp [Prod.ext_iff] at h
      · intro h
        rw [hs] at h
        simp [Prod.ext_iff] at h
        exact h.2.1.symm
      · intro h
        rw [hs] at h
        simp [Prod.ext_iff] at h
    | some e0 =>
      have hs := iter_scan_err cols st e0 hle hm
      refine ⟨?_, ?_, ?_⟩
      · intro h
        rw [hs] at h
        simp [Prod.ext_iff] at h
        exact h.2.1.symm
      · intro h
        rw [hs] at h
        simp [Prod.ext_iff] at h
      · intro h
        rw [hs] at h
        simp [Prod.ext_iff] at h

/-- C10, witness: the two-column run whose second column aborts: the call
errors naming column b, the state is unchanged, and the cell pushed for
the first column before the abort remains. -/
theorem C10_witness :
    (ExampleFdw.iter_scan colsC10 stC10).2.1 = stC10 ∧
    (ExampleFdw.iter_scan colsC10 stC10).1
      = Except.error "column b data type is not supported" ∧
    (ExampleFdw.iter_scan colsC10 stC10).2.2 = [some (Cell.String "a")] := by
  refine ⟨?_, rfl, rfl⟩
  exact (C10_errState colsC10 stC10 (ExampleFdw.iter_scan colsC10 stC10).2.1
      "column b data type is not supported" (ExampleFdw.iter_scan colsC10 stC10).2.2 0).1 rfl

end Fdw
